import Mathlib

/-!
Verification development for the polyarb-dashboard arbitrage engine.

Shallow embedding of the Python sources:
- `src/backend/python/app.py` (risk management, adaptive sizing, submission gate)
- `src/backend/python/order_manager.py` (order lifecycle, fill monitoring,
  partial-fill mitigation, position validation)

Python floats are modelled as rationals (the claims under study are about
branching and bookkeeping, not rounding); the exchange client is modelled as
a deterministic oracle of responses; Python exceptions at exchange-call
boundaries are modelled with `Except`.
-/

namespace PolyArb

/-! ## Risk-management data model (app.py) -/

/-- `ExecutionStatus` enum from app.py. `partFill` models `PARTIAL_FILL`. -/
inductive ExecStatus
  | pending
  | bothFilled
  | partFill
  | failed
  | cancelled
deriving DecidableEq

/-- One entry of `risk_state["execution_history"]`: the fields the sizing
logic reads (`status`) plus the recorded pnl. -/
structure ExecRecord where
  status : ExecStatus
  pnl : ℚ
deriving DecidableEq

/-- The scaling-relevant fields of `BotConfig` in app.py. -/
structure Config where
  initial_position_size : ℚ
  scaling_factor : ℚ
  max_scaling_size : ℚ
  min_success_rate : ℚ
  emergency_stop_loss : ℚ
  scaling_window : Nat
  max_concurrent_executions : Nat

/-- The `risk_state` global dict of app.py (the `last_scaling_check`
timestamp is never read by the logic under study and is omitted). -/
structure RiskState where
  current_position_size : ℚ
  daily_pnl : ℚ
  execution_history : List ExecRecord
  trading_enabled : Bool
deriving DecidableEq

/-- Default `BotConfig` values from app.py (initial 10, factor 1.5,
max 100, min rate 0.8, stop −50, window 10, max concurrent 3). -/
def defaultConfig : Config :=
  ⟨10, 3 / 2, 100, 4 / 5, -50, 10, 3⟩

/-- `risk_state["execution_history"][-scaling_window:]`.  For a positive
window with `len ≥ window` this is the last `window` entries; Python's
`[-0:]` quirk makes a zero window select the whole list. -/
def recent_executions (cfg : Config) (hist : List ExecRecord) : List ExecRecord :=
  if cfg.scaling_window = 0 then hist
  else hist.drop (hist.length - cfg.scaling_window)

/-- `successful_executions / len(recent_executions)` from
`get_adaptive_position_size` (app.py lines 453-459). -/
def success_rate (cfg : Config) (hist : List ExecRecord) : ℚ :=
  (((recent_executions cfg hist).countP
      (fun r => r.status == ExecStatus.bothFilled) : ℚ)) /
    (((recent_executions cfg hist).length : ℚ))

/-- Scale-up target `min(size * scaling_factor, max_scaling_size)`. -/
def scale_up (cfg : Config) (s : ℚ) : ℚ :=
  min (s * cfg.scaling_factor) cfg.max_scaling_size

/-- Scale-down target `max(size / scaling_factor, initial_position_size)`. -/
def scale_down (cfg : Config) (s : ℚ) : ℚ :=
  max (s / cfg.scaling_factor) cfg.initial_position_size

/-- `get_adaptive_position_size()` from app.py (lines 433-485): returns the
size and the updated `risk_state`.  The emergency-stop branch disables
trading and returns 0; the warm-up branch returns the current size; the
scaling branches commit a new size only when it strictly moves. -/
def get_adaptive_position_size (cfg : Config) (rs : RiskState) : ℚ × RiskState :=
  if rs.daily_pnl ≤ cfg.emergency_stop_loss then
    (0, { rs with trading_enabled := false })
  else if rs.execution_history.length < cfg.scaling_window then
    (rs.current_position_size, rs)
  else if cfg.min_success_rate ≤ success_rate cfg rs.execution_history then
    if rs.current_position_size < scale_up cfg rs.current_position_size then
      (scale_up cfg rs.current_position_size,
        { rs with current_position_size := scale_up cfg rs.current_position_size })
    else
      (rs.current_position_size, rs)
  else
    if scale_down cfg rs.current_position_size < rs.current_position_size then
      (scale_down cfg rs.current_position_size,
        { rs with current_position_size := scale_down cfg rs.current_position_size })
    else
      (rs.current_position_size, rs)

/-- The risk-state update at the end of a completed execution
(app.py lines 651-671): append the outcome, add its pnl to `daily_pnl`,
and trim the history to the last `2 * scaling_window` entries.  (Python's
`[-0:]` slice means a zero window never actually trims.) -/
def record_execution (cfg : Config) (rs : RiskState) (st : ExecStatus) (pnl : ℚ) : RiskState :=
  let hist := rs.execution_history ++ [⟨st, pnl⟩]
  let rs1 : RiskState :=
    { rs with execution_history := hist, daily_pnl := rs.daily_pnl + pnl }
  if 2 * cfg.scaling_window < rs1.execution_history.length ∧ 2 * cfg.scaling_window ≠ 0 then
    { rs1 with execution_history :=
        rs1.execution_history.drop (rs1.execution_history.length - 2 * cfg.scaling_window) }
  else
    rs1

/-- What the exchange/OrderManager layer does once a submission passes the
risk gate of `execute_arbitrage_opportunity`: the OrderManager can fail to
initialize (a failure record is appended, nothing else changes), the
execution can raise (nothing is recorded), or it completes with a status
and pnl (recorded via the full update). -/
inductive SubmitEnv
  | initFail
  | raised
  | completed (st : ExecStatus) (pnl : ℚ)

/-- Result of `execute_arbitrage_opportunity`: a risk-gate rejection
(returned before the exchange is ever contacted), an OrderManager
initialization failure, or a dispatch to `order_manager.execute_arbitrage`
with the resolved size. -/
inductive SubmitOutcome
  | rejected (reason : String)
  | initFailed
  | dispatched (size : ℚ)
deriving DecidableEq

/-- The size `execute_arbitrage_opportunity` resolves: the caller's
override if given, otherwise the adaptive size. -/
def resolved_size (cfg : Config) (rs : RiskState) (override : Option ℚ) : ℚ :=
  match override with
  | some s => s
  | none => (get_adaptive_position_size cfg rs).1

/-- `execute_arbitrage_opportunity(opp, position_size)` from app.py
(lines 488-717), restricted to its risk-state effects.  The gate checks
`trading_enabled` first, then resolves the size (running the adaptive
routine when no override is given), then rejects on a non-positive size;
only then does the execution environment act. -/
def execute_arbitrage_opportunity (cfg : Config) (rs : RiskState)
    (override : Option ℚ) (env : SubmitEnv) : SubmitOutcome × RiskState :=
  if rs.trading_enabled = false then
    (SubmitOutcome.rejected ("Trading disabled by risk management"), rs)
  else
    let rs1 := match override with
      | some _ => rs
      | none => (get_adaptive_position_size cfg rs).2
    if resolved_size cfg rs override ≤ 0 then
      (SubmitOutcome.rejected ("Position size is 0 (risk management)"), rs1)
    else
      match env with
      | SubmitEnv.initFail =>
          (SubmitOutcome.initFailed,
            { rs1 with execution_history := rs1.execution_history ++ [⟨ExecStatus.failed, 0⟩] })
      | SubmitEnv.raised =>
          (SubmitOutcome.dispatched (resolved_size cfg rs override), rs1)
      | SubmitEnv.completed st pnl =>
          (SubmitOutcome.dispatched (resolved_size cfg rs override),
            record_execution cfg rs1 st pnl)

/-- Module-level state relevant to submission: the risk state plus the
`active_executions` in-flight count (a global that
`execute_arbitrage_opportunity` never reads). -/
structure CoordState where
  rs : RiskState
  active_executions : Nat

/-- `execute_arbitrage_opportunity` in its global context: the in-flight
count is carried through untouched, exactly as in the source. -/
def execute_arbitrage_opportunity_app (cfg : Config) (st : CoordState)
    (override : Option ℚ) (env : SubmitEnv) : SubmitOutcome × CoordState :=
  ((execute_arbitrage_opportunity cfg st.rs override env).1,
    ⟨(execute_arbitrage_opportunity cfg st.rs override env).2, st.active_executions⟩)

/-- The operations through which app.py touches `risk_state`: a bare call
to the adaptive-sizing routine, or a full submission. -/
inductive RiskOp
  | getSize
  | submit (override : Option ℚ) (env : SubmitEnv)

/-- State effect of one operation. -/
def apply_risk_op (cfg : Config) (rs : RiskState) : RiskOp → RiskState
  | RiskOp.getSize => (get_adaptive_position_size cfg rs).2
  | RiskOp.submit ov env => (execute_arbitrage_opportunity cfg rs ov env).2

/-- Run a sequence of operations. -/
def apply_risk_ops (cfg : Config) (rs : RiskState) (ops : List RiskOp) : RiskState :=
  ops.foldl (apply_risk_op cfg) rs

/-- Initial `risk_state` from app.py lines 100-106. -/
def init_risk_state (cfg : Config) : RiskState :=
  ⟨cfg.initial_position_size, 0, [], true⟩

/-! ## Order lifecycle data model (order_manager.py) -/

/-- `OrderStatus` enum. `partFill` models `PARTIAL_FILL`. -/
inductive OrderStatus
  | pending
  | partFill
  | filled
  | cancelled
  | failed
  | expired
deriving DecidableEq

/-- `FillStatus` enum. -/
inductive FillStatus
  | bothFilled
  | oneFilled
  | noneFilled
  | timeout
deriving DecidableEq

/-- The `BUY` side constant. -/
def BUY : String := "BUY"

/-- `OrderInfo` dataclass. -/
structure OrderInfo where
  order_id : String
  token_id : String
  side : String
  size : ℚ
  price : ℚ
  timestamp : ℚ
  status : OrderStatus
  filled_size : ℚ
  remaining_size : ℚ
deriving DecidableEq

/-- The dict returned by `get_order_status` (and, on success, by the
client's `get_order`). -/
structure OrderStatusResp where
  status : String
  size : ℚ
  filled_size : ℚ
  remaining_size : ℚ
  price : ℚ
deriving DecidableEq

/-- One order-book level. -/
structure BookEntry where
  price : ℚ
  size : ℚ
deriving DecidableEq

/-- An order book as returned by `get_order_book`. -/
structure Book where
  asks : List BookEntry
  bids : List BookEntry
deriving DecidableEq

/-- The mitigation notes of `handle_partial_fill` and its two helpers,
one constructor per distinct message in the source.  `controlledLossYes`
and `controlledLossNo` carry the formatted loss;
`assumedLossYes`/`assumedLossNo` are the `-0.01` fallback messages
(which also read "small controlled loss assumed"). -/
inductive MitNote
  | retryFilled
  | controlledLossYes (loss : ℚ)
  | controlledLossNo (loss : ℚ)
  | assumedLossYes
  | assumedLossNo
  | unexpectedState
  | missingOrders
deriving DecidableEq

/-- Whether the note's source text mentions a controlled loss. -/
def mentions_controlled_loss : MitNote → Bool
  | MitNote.controlledLossYes _ => true
  | MitNote.controlledLossNo _ => true
  | MitNote.assumedLossYes => true
  | MitNote.assumedLossNo => true
  | _ => false

/-- The base message of `execution.notes`, one constructor per distinct
assignment in `execute_arbitrage`. -/
inductive NoteBase
  | bothFilledNote
  | partialNote (n : MitNote)
  | fillFailed (fs : FillStatus)
  | execError (reason : String)
deriving DecidableEq

/-- `execution.notes` with the two warning suffixes `execute_arbitrage`
may append (naked-exposure warning after mitigation, final
position-validation warning) modelled as flags. -/
structure ExecNotes where
  base : NoteBase
  naked_warning : Bool
  validation_warning : Bool
deriving DecidableEq

/-- `ArbitrageExecution` dataclass (start_time omitted: never read). -/
structure ArbExec where
  market_id : String
  yes_order : Option OrderInfo
  no_order : Option OrderInfo
  fill_status : FillStatus
  pnl : ℚ
  notes : ExecNotes
deriving DecidableEq

/-- One recorded position of `PositionValidator.active_positions`. -/
structure PosRecord where
  ptype : String
  size : ℚ
  timestamp : ℚ
deriving DecidableEq

/-- `PositionValidator.active_positions` (`market_id -> position info`),
as an association list with dict-update semantics. -/
def PVState := List (String × PosRecord)

/-- Dict assignment `self.active_positions[market_id] = {...}`
(`_record_position`, order_manager.py lines 660-666; timestamps are
modelled as 0). -/
def record_position (pv : PVState) (market_id ptype : String) (size : ℚ) : PVState :=
  (market_id, ⟨ptype, size, 0⟩) :: pv.filter (fun p => !(p.1 == market_id))

/-- `PositionValidator.validate_arbitrage_position` (lines 592-633):
classifies the exposure, records hedged/naked positions, and returns
whether the position is safe. -/
def validate_arbitrage_position (pv : PVState) (market_id : String)
    (yes_order no_order : Option OrderInfo) : Bool × PVState :=
  match yes_order, no_order with
  | some y, some n =>
    if y.status = OrderStatus.filled ∧ n.status = OrderStatus.filled then
      (true, record_position pv market_id ("hedged") y.size)
    else if ¬(y.status = OrderStatus.filled) ∧ ¬(n.status = OrderStatus.filled) then
      (true, pv)
    else if y.status = OrderStatus.filled then
      (false, record_position pv market_id ("naked_yes") y.size)
    else
      (false, record_position pv market_id ("naked_no") n.size)
  | _, _ => (false, pv)

/-- The exchange, as the deterministic responses this execution will
observe.  `Except.error` models the underlying client call raising.
`pollYes`/`pollNo`/`pollRetry` give the `get_order` response at each
polling iteration; `yesBook`/`noBook` the books of the two tokens. -/
structure Oracle where
  marketInfo : Except String (String × String)
  placeYes : Except String String
  placeNo : Except String String
  pollYes : Nat → Except String OrderStatusResp
  pollNo : Nat → Except String OrderStatusResp
  yesBook : Except String Book
  noBook : Except String Book
  placeRetry : Except String String
  pollRetry : Nat → Except String OrderStatusResp

/-- `get_order_status` (lines 267-286): a raising `get_order` is caught
and converted into the error dict with zeroed sizes. -/
def get_order_status : Except String OrderStatusResp → OrderStatusResp
  | Except.ok r => r
  | Except.error _ => ⟨"error", 0, 0, 0, 0⟩

/-- One polling step of `monitor_fills` on one leg (lines 418-439):
overwrite `filled_size`/`remaining_size` with the queried values, mark
`FILLED` when the filled size equals the requested size and
`PARTIAL_FILL` when it is positive; also returns the leg's
`yes_filled`/`no_filled` flag. -/
def poll_update (ord : OrderInfo) (resp : Except String OrderStatusResp) :
    OrderInfo × Bool :=
  let st := get_order_status resp
  let ord1 := { ord with filled_size := st.filled_size, remaining_size := st.remaining_size }
  if st.filled_size = ord.size then
    ({ ord1 with status := OrderStatus.filled }, true)
  else if 0 < st.filled_size then
    ({ ord1 with status := OrderStatus.partFill }, false)
  else
    (ord1, false)

/-- The polling loop of `monitor_fills` (lines 403-454).  `fuel` is the
number of loop iterations the wall-clock deadline permits and `t` the
current iteration index; a leg already flagged filled is not re-polled;
the loop returns `BOTH_FILLED` the moment both flags hold, and at the
deadline returns `ONE_FILLED` if either flag holds, else `TIMEOUT`. -/
def monitor_fills_aux (oy ono : Nat → Except String OrderStatusResp) :
    Nat → Nat → OrderInfo → OrderInfo → Bool → Bool →
    FillStatus × OrderInfo × OrderInfo
  | 0, _, yes, no, yf, nf =>
      (if yf || nf then FillStatus.oneFilled else FillStatus.timeout, yes, no)
  | fuel + 1, t, yes, no, yf, nf =>
      let py := if yf then (yes, true) else poll_update yes (oy t)
      let pn := if nf then (no, true) else poll_update no (ono t)
      if py.2 && pn.2 then
        (FillStatus.bothFilled, py.1, pn.1)
      else
        monitor_fills_aux oy ono fuel (t + 1) py.1 pn.1 py.2 pn.2

/-- `monitor_fills` entered with both flags down. -/
def monitor_fills (oy ono : Nat → Except String OrderStatusResp) (ticks : Nat)
    (yes no : OrderInfo) : FillStatus × OrderInfo × OrderInfo :=
  monitor_fills_aux oy ono ticks 0 yes no false false

/-- The 10-second retry-monitoring loop inside the one-filled handlers
(lines 504-512): true iff some polling iteration reports the retry order
fully filled. -/
def retry_fills (poll : Nat → Except String OrderStatusResp) (ticks : Nat)
    (target : ℚ) : Bool :=
  (List.range ticks).any (fun t => decide ((get_order_status (poll t)).filled_size = target))

/-- The unwind tail of `_handle_yes_only_fill` (lines 514-531): exit the
filled YES leg at the best bid; a missing book or an empty bid side falls
through to the assumed-loss return. -/
def unwind_yes (o : Oracle) (yes : OrderInfo) : ℚ × MitNote :=
  match o.yesBook with
  | Except.error _ => (-(1 / 100 : ℚ), MitNote.assumedLossYes)
  | Except.ok yb =>
    match yb.bids with
    | [] => (-(1 / 100 : ℚ), MitNote.assumedLossYes)
    | e :: _ =>
      (-((yes.price - e.price) * yes.size),
        MitNote.controlledLossYes ((yes.price - e.price) * yes.size))

/-- `_handle_yes_only_fill` (lines 479-531): retry the NO leg at its
current ask when the edge persists, else (or when the retry never fills)
unwind the YES leg; any raising client call is caught and the
assumed-loss constant returned. -/
def handle_yes_only_fill (o : Oracle) (retryTicks : Nat) (yes no : OrderInfo) :
    ℚ × MitNote :=
  match o.noBook with
  | Except.error _ => (-(1 / 100 : ℚ), MitNote.assumedLossYes)
  | Except.ok nb =>
    let current_no_ask := match nb.asks with
      | [] => no.price
      | e :: _ => e.price
    if current_no_ask + yes.price < 1 then
      match o.placeRetry with
      | Except.error _ => (-(1 / 100 : ℚ), MitNote.assumedLossYes)
      | Except.ok _ =>
        if retry_fills o.pollRetry retryTicks no.size then
          (0, MitNote.retryFilled)
        else
          unwind_yes o yes
    else
      unwind_yes o yes

/-- The unwind tail of `_handle_no_only_fill` (lines 565-579). -/
def unwind_no (o : Oracle) (no : OrderInfo) : ℚ × MitNote :=
  match o.noBook with
  | Except.error _ => (-(1 / 100 : ℚ), MitNote.assumedLossNo)
  | Except.ok nb =>
    match nb.bids with
    | [] => (-(1 / 100 : ℚ), MitNote.assumedLossNo)
    | e :: _ =>
      (-((no.price - e.price) * no.size),
        MitNote.controlledLossNo ((no.price - e.price) * no.size))

/-- `_handle_no_only_fill` (lines 533-579), the mirror image. -/
def handle_no_only_fill (o : Oracle) (retryTicks : Nat) (yes no : OrderInfo) :
    ℚ × MitNote :=
  match o.yesBook with
  | Except.error _ => (-(1 / 100 : ℚ), MitNote.assumedLossNo)
  | Except.ok yb =>
    let current_yes_ask := match yb.asks with
      | [] => yes.price
      | e :: _ => e.price
    if current_yes_ask + no.price < 1 then
      match o.placeRetry with
      | Except.error _ => (-(1 / 100 : ℚ), MitNote.assumedLossNo)
      | Except.ok _ =>
        if retry_fills o.pollRetry retryTicks yes.size then
          (0, MitNote.retryFilled)
        else
          unwind_no o no
    else
      unwind_no o no

/-- `handle_partial_fill` (lines 456-477).  At its call site both orders
exist, so the missing-order guards of the helpers are unreachable and the
helpers take the orders directly. -/
def handle_partial_fill (o : Oracle) (retryTicks : Nat) (yes no : OrderInfo) :
    ℚ × MitNote :=
  if yes.status = OrderStatus.filled ∧ ¬(no.status = OrderStatus.filled) then
    handle_yes_only_fill o retryTicks yes no
  else if no.status = OrderStatus.filled ∧ ¬(yes.status = OrderStatus.filled) then
    handle_no_only_fill o retryTicks yes no
  else
    (0, MitNote.unexpectedState)

/-- The final-warning condition of `execute_arbitrage` (lines 388-393). -/
def warn_final (position_valid : Bool) (fs : FillStatus) : Bool :=
  !position_valid && !(decide (fs = FillStatus.noneFilled))

/-- The result branches of `execute_arbitrage` after both legs were
placed and monitored (lines 356-393). -/
def finalize_execution (o : Oracle) (retryTicks : Nat)
    (market_id yid nid : String) (fs : FillStatus) (yes1 no1 : OrderInfo)
    (position_valid : Bool) (pv1 : PVState) :
    ArbExec × PVState × List String × List String :=
  if fs = FillStatus.bothFilled then
    (⟨market_id, some yes1, some no1, FillStatus.bothFilled, 0,
        ⟨NoteBase.bothFilledNote, false, warn_final position_valid fs⟩⟩,
      pv1, [yid, nid], [])
  else if fs = FillStatus.oneFilled then
    (⟨market_id, some yes1, some no1, FillStatus.oneFilled,
        (handle_partial_fill o retryTicks yes1 no1).1,
        ⟨NoteBase.partialNote (handle_partial_fill o retryTicks yes1 no1).2,
          !position_valid, warn_final position_valid fs⟩⟩,
      pv1, [yid, nid], [])
  else
    (⟨market_id, some yes1, some no1, fs, 0,
        ⟨NoteBase.fillFailed fs, false, warn_final position_valid fs⟩⟩,
      pv1, [yid, nid], [yid, nid])

/-- A freshly placed leg's `OrderInfo` (lines 331-346). -/
def init_order (oid tok : String) (size price : ℚ) : OrderInfo :=
  ⟨oid, tok, BUY, size, price, 0, OrderStatus.pending, 0, 0⟩

/-- The execution returned from the `except` block of `execute_arbitrage`
(lines 395-399): both order fields still `None`, `NONE_FILLED`, and the
reason in the notes. -/
def error_exec (market_id e : String) : ArbExec :=
  ⟨market_id, none, none, FillStatus.noneFilled, 0,
    ⟨NoteBase.execError e, false, false⟩⟩

/-- Full result of one `execute_arbitrage` call: the execution, the
validator state after it, the order ids actually placed at the exchange,
and the order ids cancelled at the exchange. -/
structure ExecResult where
  ex : ArbExec
  pv : PVState
  placed : List String
  cancelled : List String

/-- `OrderManager.execute_arbitrage` (lines 288-401): resolve tokens,
place both legs, monitor fills, validate the position (before the result
branches, as in the source), then branch on the fill status; a raise at
token resolution or at either placement is caught by the `except` block,
which finalizes the execution without cancelling anything. -/
def execute_arbitrage (o : Oracle) (ticks retryTicks : Nat) (market_id : String)
    (yes_price no_price position_size : ℚ) (pv : PVState) : ExecResult :=
  match o.marketInfo with
  | Except.error e => ⟨error_exec market_id e, pv, [], []⟩
  | Except.ok tks =>
    match o.placeYes with
    | Except.error e => ⟨error_exec market_id e, pv, [], []⟩
    | Except.ok yid =>
      match o.placeNo with
      | Except.error e => ⟨error_exec market_id e, pv, [yid], []⟩
      | Except.ok nid =>
        let m := monitor_fills o.pollYes o.pollNo ticks
          (init_order yid tks.1 position_size yes_price)
          (init_order nid tks.2 position_size no_price)
        let val := validate_arbitrage_position pv market_id (some m.2.1) (some m.2.2)
        let f := finalize_execution o retryTicks market_id yid nid m.1 m.2.1 m.2.2 val.1 val.2
        ⟨f.1, f.2.1, f.2.2.1, f.2.2.2⟩

/-! ## Snapshot semantics of `get_active_positions` (order_manager.py 668-678)

`self.active_positions.copy()` allocates a fresh dict object sharing the
per-market record objects.  To make the aliasing visible in a functional
embedding, dict objects live in an explicit memory: `dicts` is the store of
dict objects (each an association list from market id to a record
reference) and `recs` the store of per-market record objects.  The
validator owns one dict (an index into `dicts`). -/

/-- The memory holding dict objects and position-record objects. -/
structure Mem where
  dicts : List (List (String × Nat))
  recs : List PosRecord
deriving DecidableEq

/-- `get_active_positions` (lines 668-670): allocate a fresh dict with the
same entries (same record references) as the validator's dict `v` and
return its reference. -/
def get_active_positions (m : Mem) (v : Nat) : Nat × Mem :=
  (m.dicts.length, { m with dicts := m.dicts ++ [m.dicts.getD v []] })

/-- Read a dict: its entries with their record objects resolved. -/
def read_positions (m : Mem) (d : Nat) : List (String × Option PosRecord) :=
  (m.dicts.getD d []).map (fun p => (p.1, m.recs.get? p.2))

/-- `get_naked_positions` (lines 672-678): the entries of the validator's
dict whose record's type is `naked_yes` or `naked_no`. -/
def get_naked_positions (m : Mem) (v : Nat) : List (String × Option PosRecord) :=
  (read_positions m v).filter (fun p =>
    match p.2 with
    | some r => r.ptype == "naked_yes" || r.ptype == "naked_no"
    | none => false)

/-- Dict-level mutations of a dict object: `d[k] = ref` and `del d[k]`. -/
inductive DictOp
  | setKey (k : String) (ref : Nat)
  | delKey (k : String)

/-- `d[k] = ref` on an association-list dict. -/
def dict_set (d : List (String × Nat)) (k : String) (ref : Nat) : List (String × Nat) :=
  (k, ref) :: d.filter (fun p => !(p.1 == k))

/-- `del d[k]` on an association-list dict. -/
def dict_del (d : List (String × Nat)) (k : String) : List (String × Nat) :=
  d.filter (fun p => !(p.1 == k))

/-- Apply one dict-level mutation to the dict object `di` in memory. -/
def apply_dict_op (m : Mem) (di : Nat) : DictOp → Mem
  | DictOp.setKey k ref => { m with dicts := m.dicts.set di (dict_set (m.dicts.getD di []) k ref) }
  | DictOp.delKey k => { m with dicts := m.dicts.set di (dict_del (m.dicts.getD di []) k) }

/-- Apply a sequence of dict-level mutations to dict `di`. -/
def apply_dict_ops (m : Mem) (di : Nat) (ops : List DictOp) : Mem :=
  ops.foldl (fun mm op => apply_dict_op mm di op) m

/-! ## Concrete inputs used by counterexamples and witnesses -/

/-- A run in which the YES leg fills on the first polling iteration and
the NO leg never fills, the edge persists at mitigation time
(NO ask 0.5, YES entry 0.45), and the mitigation retry order fills:
the classic "retry succeeded" one-filled execution. -/
def retry_success_oracle : Oracle where
  marketInfo := Except.ok ("yes_tok", "no_tok")
  placeYes := Except.ok "y1"
  placeNo := Except.ok "n1"
  pollYes := fun _ => Except.ok ⟨"filled", 10, 10, 0, 45 / 100⟩
  pollNo := fun _ => Except.ok ⟨"open", 10, 0, 10, 50 / 100⟩
  yesBook := Except.ok ⟨[⟨50 / 100, 100⟩], [⟨40 / 100, 100⟩]⟩
  noBook := Except.ok ⟨[⟨50 / 100, 100⟩], []⟩
  placeRetry := Except.ok "n2"
  pollRetry := fun _ => Except.ok ⟨"filled", 10, 10, 0, 50 / 100⟩

/-- A run in which the YES leg is placed and the NO placement raises. -/
def no_placement_fails_oracle : Oracle where
  marketInfo := Except.ok ("yes_tok", "no_tok")
  placeYes := Except.ok "y1"
  placeNo := Except.error "exchange rejected NO leg"
  pollYes := fun _ => Except.ok ⟨"open", 10, 0, 10, 45 / 100⟩
  pollNo := fun _ => Except.ok ⟨"open", 10, 0, 10, 50 / 100⟩
  yesBook := Except.ok ⟨[], []⟩
  noBook := Except.ok ⟨[], []⟩
  placeRetry := Except.ok "n2"
  pollRetry := fun _ => Except.ok ⟨"open", 10, 0, 10, 50 / 100⟩

/-- Scenario-B mitigation oracle: the NO ask has moved to 0.6 (no edge
left, so no retry), and the YES book's best bid is 0.40. -/
def unwind_oracle : Oracle where
  marketInfo := Except.ok ("yes_tok", "no_tok")
  placeYes := Except.ok "y1"
  placeNo := Except.ok "n1"
  pollYes := fun _ => Except.ok ⟨"filled", 10, 10, 0, 45 / 100⟩
  pollNo := fun _ => Except.ok ⟨"open", 10, 0, 10, 50 / 100⟩
  yesBook := Except.ok ⟨[⟨55 / 100, 100⟩], [⟨40 / 100, 100⟩]⟩
  noBook := Except.ok ⟨[⟨60 / 100, 100⟩], []⟩
  placeRetry := Except.ok "n2"
  pollRetry := fun _ => Except.ok ⟨"open", 10, 0, 10, 50 / 100⟩

/-- Polling stream for the YES leg that reports a partial fill of 3 on the
first iteration and a transient query failure on every later one. -/
def partial_then_error_poll : Nat → Except String OrderStatusResp :=
  fun t => if t = 0 then Except.ok ⟨"open", 10, 3, 7, 45 / 100⟩ else Except.error "network down"

/-- Polling stream that never reports any fill. -/
def never_fills_poll : Nat → Except String OrderStatusResp :=
  fun _ => Except.ok ⟨"open", 10, 0, 10, 50 / 100⟩

/-- Concrete YES leg used by the polling-failure analysis. -/
def c9_yes0 : OrderInfo := ⟨"y1", "yes_tok", BUY, 10, 45 / 100, 0, OrderStatus.pending, 0, 0⟩

/-- Concrete NO leg used by the polling-failure analysis. -/
def c9_no0 : OrderInfo := ⟨"n1", "no_tok", BUY, 10, 50 / 100, 0, OrderStatus.pending, 0, 0⟩

/-- The second call's scaling step: risk state with ten consecutive
`BOTH_FILLED` outcomes and the initial size. -/
def ten_wins_state : RiskState :=
  ⟨10, 0, List.replicate 10 (⟨ExecStatus.bothFilled, 0⟩ : ExecRecord), true⟩

/-- What a monitoring result must satisfy: `BOTH_FILLED` exactly when both
legs ended `FILLED`, `ONE_FILLED` only with exactly one leg `FILLED`,
`TIMEOUT` only with neither, and `NONE_FILLED` never returned. -/
def classified (r : FillStatus × OrderInfo × OrderInfo) : Prop :=
  (r.1 = FillStatus.bothFilled ↔
      (r.2.1.status = OrderStatus.filled ∧ r.2.2.status = OrderStatus.filled)) ∧
    (r.1 = FillStatus.oneFilled →
      ((r.2.1.status = OrderStatus.filled ∧ ¬(r.2.2.status = OrderStatus.filled)) ∨
        (¬(r.2.1.status = OrderStatus.filled) ∧ r.2.2.status = OrderStatus.filled))) ∧
    (r.1 = FillStatus.timeout →
      (¬(r.2.1.status = OrderStatus.filled) ∧ ¬(r.2.2.status = OrderStatus.filled))) ∧
    ¬(r.1 = FillStatus.noneFilled)

/-! ## Risk-manager lemmas -/

/-- At or below the stop-loss, the adaptive routine returns 0 and disables
trading, leaving everything else unchanged. -/
theorem get_adaptive_stop (cfg : Config) (rs : RiskState)
    (h : rs.daily_pnl ≤ cfg.emergency_stop_loss) :
    get_adaptive_position_size cfg rs = (0, { rs with trading_enabled := false }) := by
  unfold get_adaptive_position_size
  rw [if_pos h]

/-- `record_execution` never touches the position size. -/
theorem record_execution_size (cfg : Config) (rs : RiskState) (st : ExecStatus) (pnl : ℚ) :
    (record_execution cfg rs st pnl).current_position_size = rs.current_position_size := by
  simp only [record_execution]
  split_ifs <;> rfl

/-- Once trading is disabled with the pnl at or below the stop, any risk
operation keeps trading disabled and the pnl at or below the stop. -/
theorem apply_risk_op_sticky (cfg : Config) (rs : RiskState) (op : RiskOp)
    (h1 : rs.trading_enabled = false) (h2 : rs.daily_pnl ≤ cfg.emergency_stop_loss) :
    (apply_risk_op cfg rs op).trading_enabled = false ∧
      (apply_risk_op cfg rs op).daily_pnl ≤ cfg.emergency_stop_loss := by
  cases op with
  | getSize =>
    show (get_adaptive_position_size cfg rs).2.trading_enabled = false ∧
      (get_adaptive_position_size cfg rs).2.daily_pnl ≤ cfg.emergency_stop_loss
    rw [get_adaptive_stop cfg rs h2]
    exact ⟨rfl, h2⟩
  | submit ov env =>
    show (execute_arbitrage_opportunity cfg rs ov env).2.trading_enabled = false ∧
      (execute_arbitrage_opportunity cfg rs ov env).2.daily_pnl ≤ cfg.emergency_stop_loss
    unfold execute_arbitrage_opportunity
    rw [if_pos h1]
    exact ⟨h1, h2⟩

/-- Stickiness extended over any operation sequence. -/
theorem apply_risk_ops_sticky (cfg : Config) :
    ∀ (ops : List RiskOp) (rs : RiskState),
      rs.trading_enabled = false → rs.daily_pnl ≤ cfg.emergency_stop_loss →
      (apply_risk_ops cfg rs ops).trading_enabled = false ∧
        (apply_risk_ops cfg rs ops).daily_pnl ≤ cfg.emergency_stop_loss := by
  intro ops
  induction ops with
  | nil => intro rs h1 h2; exact ⟨h1, h2⟩
  | cons op rest ih =>
    intro rs h1 h2
    have hstep := apply_risk_op_sticky cfg rs op h1 h2
    exact ih (apply_risk_op cfg rs op) hstep.1 hstep.2

/-- Claim C2: once `daily_pnl ≤ emergency_stop_loss` has held at a call to
the adaptive-sizing routine, that call returns 0 and disables trading, and
after any further sequence of risk operations (bare sizing calls and
submissions, including submissions that would record positive pnl — all of
which are rejected while trading is disabled) the routine still returns 0
and trading is still disabled.  No reset exists in the code. -/
theorem C2_emergency_stop_sticky (cfg : Config) (rs : RiskState)
    (h : rs.daily_pnl ≤ cfg.emergency_stop_loss) (ops : List RiskOp) :
    (get_adaptive_position_size cfg rs).1 = 0 ∧
      (get_adaptive_position_size cfg
        (apply_risk_ops cfg (get_adaptive_position_size cfg rs).2 ops)).1 = 0 ∧
      (apply_risk_ops cfg (get_adaptive_position_size cfg rs).2 ops).trading_enabled = false := by
  have h0 := get_adaptive_stop cfg rs h
  have hpost : (get_adaptive_position_size cfg rs).2.trading_enabled = false ∧
      (get_adaptive_position_size cfg rs).2.daily_pnl ≤ cfg.emergency_stop_loss := by
    rw [h0]; exact ⟨rfl, h⟩
  have hs := apply_risk_ops_sticky cfg ops (get_adaptive_position_size cfg rs).2 hpost.1 hpost.2
  refine ⟨by rw [h0], ?_, hs.1⟩
  rw [get_adaptive_stop cfg _ hs.2]

/-- Witness for C2: stop hit at −50 with the default config, followed by a
submission that would have recorded +100 pnl and a bare sizing call. -/
theorem C2_emergency_stop_sticky_witness :
    (get_adaptive_position_size defaultConfig ⟨10, -50, [], true⟩).1 = 0 ∧
      (get_adaptive_position_size defaultConfig
        (apply_risk_ops defaultConfig (get_adaptive_position_size defaultConfig ⟨10, -50, [], true⟩).2
          [RiskOp.submit (some 5) (SubmitEnv.completed ExecStatus.bothFilled 100),
            RiskOp.getSize])).1 = 0 ∧
      (apply_risk_ops defaultConfig (get_adaptive_position_size defaultConfig ⟨10, -50, [], true⟩).2
          [RiskOp.submit (some 5) (SubmitEnv.completed ExecStatus.bothFilled 100),
            RiskOp.getSize]).trading_enabled = false :=
  C2_emergency_stop_sticky defaultConfig ⟨10, -50, [], true⟩ (by decide)
    [RiskOp.submit (some 5) (SubmitEnv.completed ExecStatus.bothFilled 100), RiskOp.getSize]

/-- Claim C3, counterexample: with ten `BOTH_FILLED` outcomes in the
window and the current size 10, the first call returns 15 and the second
call (with nothing recorded in between) returns 22.5 — the two successive
calls differ, because the scaling branch applies a step on every call. -/
theorem C3_counterexample :
    (get_adaptive_position_size defaultConfig ten_wins_state).1 = 15 ∧
      (get_adaptive_position_size defaultConfig
        (get_adaptive_position_size defaultConfig ten_wins_state).2).1 = 45 / 2 ∧
      ¬((get_adaptive_position_size defaultConfig
          (get_adaptive_position_size defaultConfig ten_wins_state).2).1 =
        (get_adaptive_position_size defaultConfig ten_wins_state).1) := by
  have e1 : get_adaptive_position_size defaultConfig ten_wins_state =
      (15, ⟨15, 0, List.replicate 10 (⟨ExecStatus.bothFilled, 0⟩ : ExecRecord), true⟩) := by
    norm_num [get_adaptive_position_size, defaultConfig, ten_wins_state, success_rate,
      recent_executions, scale_up, scale_down, List.replicate]
  have e2 : get_adaptive_position_size defaultConfig
      (⟨15, 0, List.replicate 10 (⟨ExecStatus.bothFilled, 0⟩ : ExecRecord), true⟩ : RiskState) =
      (45 / 2, ⟨45 / 2, 0, List.replicate 10 (⟨ExecStatus.bothFilled, 0⟩ : ExecRecord), true⟩) := by
    norm_num [get_adaptive_position_size, defaultConfig, success_rate,
      recent_executions, scale_up, scale_down, List.replicate]
  simp only [e1]
  norm_num [e2]

/-- Claim C3, amended: two successive calls to the adaptive-sizing routine
with no execution recorded between them return the same value whenever the
first call leaves `current_position_size` unchanged (in particular in the
emergency-stop and warm-up branches, and at the scaling caps); when the
first call commits a scaling step, the second call returns the
further-scaled value instead. -/
theorem C3_second_call_agrees_when_size_unchanged (cfg : Config) (rs : RiskState)
    (h : (get_adaptive_position_size cfg rs).2.current_position_size = rs.current_position_size) :
    (get_adaptive_position_size cfg (get_adaptive_position_size cfg rs).2).1 =
      (get_adaptive_position_size cfg rs).1 := by
  by_cases h1 : rs.daily_pnl ≤ cfg.emergency_stop_loss
  · have e1 := get_adaptive_stop cfg rs h1
    have h1' : ({ rs with trading_enabled := false } : RiskState).daily_pnl ≤
        cfg.emergency_stop_loss := h1
    rw [e1]
    rw [get_adaptive_stop cfg _ h1']
  · by_cases h2 : rs.execution_history.length < cfg.scaling_window
    · have e1 : get_adaptive_position_size cfg rs = (rs.current_position_size, rs) := by
        unfold get_adaptive_position_size
        rw [if_neg h1, if_pos h2]
      simp [e1]
    · by_cases h3 : cfg.min_success_rate ≤ success_rate cfg rs.execution_history
      · by_cases h4 : rs.current_position_size < scale_up cfg rs.current_position_size
        · exfalso
          have e1 : (get_adaptive_position_size cfg rs).2.current_position_size =
              scale_up cfg rs.current_position_size := by
            unfold get_adaptive_position_size
            rw [if_neg h1, if_neg h2, if_pos h3, if_pos h4]
          rw [e1] at h
          exact absurd h.symm (ne_of_lt h4)
        · have e1 : get_adaptive_position_size cfg rs = (rs.current_position_size, rs) := by
            unfold get_adaptive_position_size
            rw [if_neg h1, if_neg h2, if_pos h3, if_neg h4]
          simp [e1]
      · by_cases h4 : scale_down cfg rs.current_position_size < rs.current_position_size
        · exfalso
          have e1 : (get_adaptive_position_size cfg rs).2.current_position_size =
              scale_down cfg rs.current_position_size := by
            unfold get_adaptive_position_size
            rw [if_neg h1, if_neg h2, if_neg h3, if_pos h4]
          rw [e1] at h
          exact absurd h (ne_of_lt h4)
        · have e1 : get_adaptive_position_size cfg rs = (rs.current_position_size, rs) := by
            unfold get_adaptive_position_size
            rw [if_neg h1, if_neg h2, if_neg h3, if_neg h4]
          simp [e1]

/-- Witness for C3's amended theorem: an empty history (warm-up branch)
leaves the size unchanged, so both calls return 10. -/
theorem C3_second_call_agrees_when_size_unchanged_witness :
    (get_adaptive_position_size defaultConfig
      (get_adaptive_position_size defaultConfig ⟨10, 0, [], true⟩).2).1 =
      (get_adaptive_position_size defaultConfig ⟨10, 0, [], true⟩).1 :=
  C3_second_call_agrees_when_size_unchanged defaultConfig ⟨10, 0, [], true⟩ (by decide)

/-- One adaptive-sizing call keeps the position size within
`[initial_position_size, max_scaling_size]`. -/
theorem get_adaptive_size_bounds (cfg : Config) (rs : RiskState)
    (h : cfg.initial_position_size ≤ rs.current_position_size ∧
      rs.current_position_size ≤ cfg.max_scaling_size) :
    cfg.initial_position_size ≤ (get_adaptive_position_size cfg rs).2.current_position_size ∧
      (get_adaptive_position_size cfg rs).2.current_position_size ≤ cfg.max_scaling_size := by
  unfold get_adaptive_position_size
  split_ifs with h1 h2 h3 h4 h5
  · exact h
  · exact h
  · exact ⟨le_trans h.1 (le_of_lt h4), min_le_right _ _⟩
  · exact h
  · exact ⟨le_max_right _ _, le_trans (le_of_lt h5) h.2⟩
  · exact h

/-- A submission leaves the position size either unchanged or equal to
what one adaptive-sizing call would make it. -/
theorem execute_opportunity_size_cases (cfg : Config) (rs : RiskState)
    (ov : Option ℚ) (env : SubmitEnv) :
    (execute_arbitrage_opportunity cfg rs ov env).2.current_position_size =
        rs.current_position_size ∨
      (execute_arbitrage_opportunity cfg rs ov env).2.current_position_size =
        (get_adaptive_position_size cfg rs).2.current_position_size := by
  cases ov <;> cases env <;>
    simp only [execute_arbitrage_opportunity] <;>
    split_ifs <;>
    first
      | exact Or.inl rfl
      | exact Or.inr rfl
      | exact Or.inl (record_execution_size _ _ _ _)
      | exact Or.inr (record_execution_size _ _ _ _)

/-- Every risk operation preserves the size bound. -/
theorem apply_risk_op_bounds (cfg : Config) (rs : RiskState) (op : RiskOp)
    (h : cfg.initial_position_size ≤ rs.current_position_size ∧
      rs.current_position_size ≤ cfg.max_scaling_size) :
    cfg.initial_position_size ≤ (apply_risk_op cfg rs op).current_position_size ∧
      (apply_risk_op cfg rs op).current_position_size ≤ cfg.max_scaling_size := by
  cases op with
  | getSize => exact get_adaptive_size_bounds cfg rs h
  | submit ov env =>
    show cfg.initial_position_size ≤
        (execute_arbitrage_opportunity cfg rs ov env).2.current_position_size ∧
      (execute_arbitrage_opportunity cfg rs ov env).2.current_position_size ≤
        cfg.max_scaling_size
    rcases execute_opportunity_size_cases cfg rs ov env with he | he
    · rw [he]; exact h
    · rw [he]; exact get_adaptive_size_bounds cfg rs h

/-- The size bound extended over any operation sequence. -/
theorem apply_risk_ops_bounds (cfg : Config) :
    ∀ (ops : List RiskOp) (rs : RiskState),
      cfg.initial_position_size ≤ rs.current_position_size →
      rs.current_position_size ≤ cfg.max_scaling_size →
      cfg.initial_position_size ≤ (apply_risk_ops cfg rs ops).current_position_size ∧
        (apply_risk_ops cfg rs ops).current_position_size ≤ cfg.max_scaling_size := by
  intro ops
  induction ops with
  | nil => intro rs hlo hhi; exact ⟨hlo, hhi⟩
  | cons op rest ih =>
    intro rs hlo hhi
    have hstep := apply_risk_op_bounds cfg rs op ⟨hlo, hhi⟩
    exact ih (apply_risk_op cfg rs op) hstep.1 hstep.2

/-- Claim C6: starting from the initial risk state (size =
`initial_position_size`), with `initial_position_size ≤ max_scaling_size`,
any sequence of recorded execution outcomes and sizing calls keeps
`current_position_size` within `[initial_position_size,
max_scaling_size]`. -/
theorem C6_position_size_bounds (cfg : Config)
    (h : cfg.initial_position_size ≤ cfg.max_scaling_size) (ops : List RiskOp) :
    cfg.initial_position_size ≤
        (apply_risk_ops cfg (init_risk_state cfg) ops).current_position_size ∧
      (apply_risk_ops cfg (init_risk_state cfg) ops).current_position_size ≤
        cfg.max_scaling_size :=
  apply_risk_ops_bounds cfg ops (init_risk_state cfg) (le_refl _) h

/-- Witness for C6: the default config over a concrete mixed run. -/
theorem C6_position_size_bounds_witness :
    defaultConfig.initial_position_size ≤
        (apply_risk_ops defaultConfig (init_risk_state defaultConfig)
          [RiskOp.getSize,
            RiskOp.submit none (SubmitEnv.completed ExecStatus.bothFilled 1),
            RiskOp.submit (some 5) (SubmitEnv.completed ExecStatus.failed (-3)),
            RiskOp.getSize]).current_position_size ∧
      (apply_risk_ops defaultConfig (init_risk_state defaultConfig)
          [RiskOp.getSize,
            RiskOp.submit none (SubmitEnv.completed ExecStatus.bothFilled 1),
            RiskOp.submit (some 5) (SubmitEnv.completed ExecStatus.failed (-3)),
            RiskOp.getSize]).current_position_size ≤
        defaultConfig.max_scaling_size :=
  C6_position_size_bounds defaultConfig (by norm_num [defaultConfig])
    [RiskOp.getSize,
      RiskOp.submit none (SubmitEnv.completed ExecStatus.bothFilled 1),
      RiskOp.submit (some 5) (SubmitEnv.completed ExecStatus.failed (-3)),
      RiskOp.getSize]

/-- Claim C8, counterexample: with trading enabled, a positive resolved
size, and the in-flight count already at `max_concurrent_executions` (3 in
the default config), the submission entry point does not reject — it
dispatches to the exchange.  The entry point performs no concurrency
check. -/
theorem C8_counterexample :
    defaultConfig.max_concurrent_executions ≤
        (⟨⟨10, 0, [], true⟩, 3⟩ : CoordState).active_executions ∧
      (execute_arbitrage_opportunity_app defaultConfig ⟨⟨10, 0, [], true⟩, 3⟩
          (some 10) SubmitEnv.raised).1 = SubmitOutcome.dispatched 10 ∧
      ∀ reason,
        ¬((execute_arbitrage_opportunity_app defaultConfig ⟨⟨10, 0, [], true⟩, 3⟩
            (some 10) SubmitEnv.raised).1 = SubmitOutcome.rejected reason) := by
  refine ⟨by decide, by decide, ?_⟩
  intro reason hr
  have hd : (execute_arbitrage_opportunity_app defaultConfig ⟨⟨10, 0, [], true⟩, 3⟩
      (some 10) SubmitEnv.raised).1 = SubmitOutcome.dispatched 10 := by decide
  rw [hd] at hr
  exact SubmitOutcome.noConfusion hr

/-- Claim C8, amended: the submission entry point rejects without
contacting the exchange — with a distinguishable risk-gate reason — if and
only if trading is disabled or the resolved position size is ≤ 0; it
performs no concurrency check (the in-flight count, part of `CoordState`,
never influences the outcome; the auto-execute loop merely sleeps at the
concurrency limit and produces no failed result). -/
theorem C8_riskgate_rejection_iff (cfg : Config) (st : CoordState)
    (override : Option ℚ) (env : SubmitEnv) (reason : String) :
    (execute_arbitrage_opportunity_app cfg st override env).1 =
        SubmitOutcome.rejected reason ↔
      ((st.rs.trading_enabled = false ∧ reason = "Trading disabled by risk management") ∨
        (st.rs.trading_enabled = true ∧ resolved_size cfg st.rs override ≤ 0 ∧
          reason = "Position size is 0 (risk management)")) := by
  have happ : (execute_arbitrage_opportunity_app cfg st override env).1 =
      (execute_arbitrage_opportunity cfg st.rs override env).1 := rfl
  rw [happ]
  unfold execute_arbitrage_opportunity
  by_cases h1 : st.rs.trading_enabled = false
  · rw [if_pos h1]
    simp [h1, eq_comm]
  · have h1' : st.rs.trading_enabled = true := by
      cases hb : st.rs.trading_enabled
      · exact absurd hb h1
      · rfl
    rw [if_neg h1]
    by_cases h2 : resolved_size cfg st.rs override ≤ 0
    · simp [h1', h2, eq_comm]
    · cases env <;> simp [h1', h2]

/-! ## Fill-monitor lemmas -/

/-- On a leg that is not yet `FILLED`, one polling step raises the
returned flag exactly when it marks the leg `FILLED`. -/
theorem poll_update_flag (ord : OrderInfo) (resp : Except String OrderStatusResp)
    (h : ¬(ord.status = OrderStatus.filled)) :
    ((poll_update ord resp).2 = true ↔
      (poll_update ord resp).1.status = OrderStatus.filled) := by
  simp only [poll_update]
  split_ifs <;> simp [h]

/-- The monitoring loop classifies correctly: started with the two fill
flags matching the two statuses and not both raised, the result satisfies
`classified`. -/
theorem monitor_fills_aux_classify (oy ono : Nat → Except String OrderStatusResp) :
    ∀ (fuel t : Nat) (yes no : OrderInfo) (yf nf : Bool),
      (yf = true ↔ yes.status = OrderStatus.filled) →
      (nf = true ↔ no.status = OrderStatus.filled) →
      ¬(yf = true ∧ nf = true) →
      classified (monitor_fills_aux oy ono fuel t yes no yf nf) := by
  intro fuel
  induction fuel with
  | zero =>
    intro t yes no yf nf hy hn hb
    cases yf with
    | false =>
      have hyne : ¬(yes.status = OrderStatus.filled) :=
        fun hs => Bool.false_ne_true (hy.mpr hs)
      cases nf with
      | false =>
        have hnne : ¬(no.status = OrderStatus.filled) :=
          fun hs => Bool.false_ne_true (hn.mpr hs)
        simp [classified, monitor_fills_aux, hyne, hnne]
      | true =>
        have hno := hn.mp rfl
        simp [classified, monitor_fills_aux, hyne, hno]
    | true =>
      have hyes := hy.mp rfl
      cases nf with
      | false =>
        have hnne : ¬(no.status = OrderStatus.filled) :=
          fun hs => Bool.false_ne_true (hn.mpr hs)
        simp [classified, monitor_fills_aux, hyes, hnne]
      | true => exact absurd ⟨rfl, rfl⟩ hb
  | succ fuel ih =>
    intro t yes no yf nf hy hn hb
    cases yf with
    | false =>
      have hyne : ¬(yes.status = OrderStatus.filled) :=
        fun hs => Bool.false_ne_true (hy.mpr hs)
      have hpy := poll_update_flag yes (oy t) hyne
      cases nf with
      | false =>
        have hnne : ¬(no.status = OrderStatus.filled) :=
          fun hs => Bool.false_ne_true (hn.mpr hs)
        have hpn := poll_update_flag no (ono t) hnne
        cases hc : ((poll_update yes (oy t)).2 && (poll_update no (ono t)).2) with
        | false =>
          have hres : monitor_fills_aux oy ono (fuel + 1) t yes no false false =
              monitor_fills_aux oy ono fuel (t + 1)
                (poll_update yes (oy t)).1 (poll_update no (ono t)).1
                (poll_update yes (oy t)).2 (poll_update no (ono t)).2 := by
            simp [monitor_fills_aux, hc]
          rw [hres]
          refine ih (t + 1) _ _ _ _ hpy hpn ?_
          intro hand
          rw [hand.1, hand.2] at hc
          simp at hc
        | true =>
          have h1 := Bool.and_eq_true_iff.mp hc
          have hres : monitor_fills_aux oy ono (fuel + 1) t yes no false false =
              (FillStatus.bothFilled, (poll_update yes (oy t)).1, (poll_update no (ono t)).1) := by
            simp [monitor_fills_aux, hc]
          rw [hres]
          simp [classified, hpy.mp h1.1, hpn.mp h1.2]
      | true =>
        have hno := hn.mp rfl
        cases hc : (poll_update yes (oy t)).2 with
        | false =>
          have hres : monitor_fills_aux oy ono (fuel + 1) t yes no false true =
              monitor_fills_aux oy ono fuel (t + 1)
                (poll_update yes (oy t)).1 no (poll_update yes (oy t)).2 true := by
            simp [monitor_fills_aux, hc]
          rw [hres]
          refine ih (t + 1) _ _ _ _ hpy (iff_of_true rfl hno) ?_
          intro hand
          rw [hand.1] at hc
          simp at hc
        | true =>
          have hres : monitor_fills_aux oy ono (fuel + 1) t yes no false true =
              (FillStatus.bothFilled, (poll_update yes (oy t)).1, no) := by
            simp [monitor_fills_aux, hc]
          rw [hres]
          simp [classified, hpy.mp hc, hno]
    | true =>
      have hyes := hy.mp rfl
      cases nf with
      | false =>
        have hnne : ¬(no.status = OrderStatus.filled) :=
          fun hs => Bool.false_ne_true (hn.mpr hs)
        have hpn := poll_update_flag no (ono t) hnne
        cases hc : (poll_update no (ono t)).2 with
        | false =>
          have hres : monitor_fills_aux oy ono (fuel + 1) t yes no true false =
              monitor_fills_aux oy ono fuel (t + 1)
                yes (poll_update no (ono t)).1 true (poll_update no (ono t)).2 := by
            simp [monitor_fills_aux, hc]
          rw [hres]
          refine ih (t + 1) _ _ _ _ (iff_of_true rfl hyes) hpn ?_
          intro hand
          rw [hand.2] at hc
          simp at hc
        | true =>
          have hres : monitor_fills_aux oy ono (fuel + 1) t yes no true false =
              (FillStatus.bothFilled, yes, (poll_update no (ono t)).1) := by
            simp [monitor_fills_aux, hc]
          rw [hres]
          simp [classified, hyes, hpn.mp hc]
      | true => exact absurd ⟨rfl, rfl⟩ hb

/-- `monitor_fills` starts with pending orders and both flags down, so its
result is classified. -/
theorem monitor_fills_classify (oy ono : Nat → Except String OrderStatusResp)
    (ticks : Nat) (oid1 oid2 tok1 tok2 : String) (sz p1 p2 : ℚ) :
    classified (monitor_fills oy ono ticks (init_order oid1 tok1 sz p1)
      (init_order oid2 tok2 sz p2)) := by
  apply monitor_fills_aux_classify
  · simp [init_order]
  · simp [init_order]
  · simp

/-- For a classified monitoring result, the finalized execution reports
`BOTH_FILLED` exactly when both leg orders are `FILLED`. -/
theorem finalize_both_iff (o : Oracle) (retryTicks : Nat) (market_id yid nid : String)
    (m : FillStatus × OrderInfo × OrderInfo) (v : Bool × PVState) (hc : classified m) :
    ((finalize_execution o retryTicks market_id yid nid m.1 m.2.1 m.2.2 v.1 v.2).1.fill_status =
        FillStatus.bothFilled) ↔
      ((∃ y, (finalize_execution o retryTicks market_id yid nid m.1 m.2.1 m.2.2
            v.1 v.2).1.yes_order = some y ∧ y.status = OrderStatus.filled) ∧
        (∃ n, (finalize_execution o retryTicks market_id yid nid m.1 m.2.1 m.2.2
            v.1 v.2).1.no_order = some n ∧ n.status = OrderStatus.filled)) := by
  obtain ⟨c1, c2, c3, c4⟩ := hc
  by_cases hb : m.1 = FillStatus.bothFilled
  · simp [finalize_execution, hb, (c1.mp hb).1, (c1.mp hb).2]
  · by_cases ho : m.1 = FillStatus.oneFilled
    · rcases c2 ho with ⟨hyl, hnr⟩ | ⟨hyl, hnr⟩ <;>
        simp [finalize_execution, hb, ho, hyl, hnr]
    · have ht : m.1 = FillStatus.timeout := by
        cases hfs : m.1
        · exact absurd hfs hb
        · exact absurd hfs ho
        · exact absurd hfs c4
        · rfl
      rcases c3 ht with ⟨hy1, hy2⟩
      simp [finalize_execution, hb, ho, ht, hy1, hy2]

/-- Claim C5: for every execution returned by `execute_arbitrage`,
`fill_status == BOTH_FILLED` holds if and only if the YES leg's status and
the NO leg's status both equal `FILLED`. -/
theorem C5_both_filled_iff (o : Oracle) (ticks retryTicks : Nat) (market_id : String)
    (yes_price no_price position_size : ℚ) (pv : PVState) :
    ((execute_arbitrage o ticks retryTicks market_id yes_price no_price position_size
        pv).ex.fill_status = FillStatus.bothFilled) ↔
      ((∃ y, (execute_arbitrage o ticks retryTicks market_id yes_price no_price position_size
            pv).ex.yes_order = some y ∧ y.status = OrderStatus.filled) ∧
        (∃ n, (execute_arbitrage o ticks retryTicks market_id yes_price no_price position_size
            pv).ex.no_order = some n ∧ n.status = OrderStatus.filled)) := by
  cases hm : o.marketInfo with
  | error e => simp [execute_arbitrage, error_exec, hm]
  | ok tks =>
    cases hy : o.placeYes with
    | error e => simp [execute_arbitrage, error_exec, hm, hy]
    | ok yid =>
      cases hn : o.placeNo with
      | error e => simp [execute_arbitrage, error_exec, hm, hy, hn]
      | ok nid =>
        simp only [execute_arbitrage, hm, hy, hn]
        exact finalize_both_iff o retryTicks market_id yid nid _ _
          (monitor_fills_classify o.pollYes o.pollNo ticks yid nid tks.1 tks.2
            position_size yes_price no_price)

/-- Claim C9, counterexample: the YES leg reports a partial fill of 3 on
the first polling iteration; on the second iteration the status query
fails.  The failed tick does not leave the previously observed
`filled_size`/`remaining_size` unchanged — it overwrites both with the
error dict's 0 (the status field is left alone and polling continues). -/
theorem C9_counterexample :
    (monitor_fills partial_then_error_poll never_fills_poll 1 c9_yes0 c9_no0).2.1.filled_size
        = 3 ∧
    (monitor_fills partial_then_error_poll never_fills_poll 1 c9_yes0 c9_no0).2.1.status =
        OrderStatus.partFill ∧
    (monitor_fills partial_then_error_poll never_fills_poll 2 c9_yes0 c9_no0).2.1.filled_size
        = 0 ∧
    (monitor_fills partial_then_error_poll never_fills_poll 2 c9_yes0 c9_no0
      ).2.1.remaining_size = 0 ∧
    (monitor_fills partial_then_error_poll never_fills_poll 2 c9_yes0 c9_no0).2.1.status =
        OrderStatus.partFill ∧
    ¬((monitor_fills partial_then_error_poll never_fills_poll 2 c9_yes0 c9_no0
        ).2.1.filled_size =
      (monitor_fills partial_then_error_poll never_fills_poll 1 c9_yes0 c9_no0
        ).2.1.filled_size) := by
  have p0 : poll_update c9_yes0 (partial_then_error_poll 0) =
      (⟨"y1", "yes_tok", BUY, 10, 45 / 100, 0, OrderStatus.partFill, 3, 7⟩, false) := by
    simp only [poll_update, get_order_status, partial_then_error_poll, c9_yes0]
    norm_num
  have q0 : poll_update c9_no0 (never_fills_poll 0) =
      (⟨"n1", "no_tok", BUY, 10, 50 / 100, 0, OrderStatus.pending, 0, 10⟩, false) := by
    simp only [poll_update, get_order_status, never_fills_poll, c9_no0]
    norm_num
  have p1 : poll_update (⟨"y1", "yes_tok", BUY, 10, 45 / 100, 0, OrderStatus.partFill, 3, 7⟩ :
      OrderInfo) (partial_then_error_poll 1) =
      (⟨"y1", "yes_tok", BUY, 10, 45 / 100, 0, OrderStatus.partFill, 0, 0⟩, false) := by
    simp only [poll_update, get_order_status, partial_then_error_poll]
    norm_num
  have q1 : poll_update (⟨"n1", "no_tok", BUY, 10, 50 / 100, 0, OrderStatus.pending, 0, 10⟩ :
      OrderInfo) (never_fills_poll 1) =
      (⟨"n1", "no_tok", BUY, 10, 50 / 100, 0, OrderStatus.pending, 0, 10⟩, false) := by
    simp only [poll_update, get_order_status, never_fills_poll]
    norm_num
  have r2a : monitor_fills_aux partial_then_error_poll never_fills_poll (0 + 1) 1
      (⟨"y1", "yes_tok", BUY, 10, 45 / 100, 0, OrderStatus.partFill, 3, 7⟩ : OrderInfo)
      (⟨"n1", "no_tok", BUY, 10, 50 / 100, 0, OrderStatus.pending, 0, 10⟩ : OrderInfo)
      false false =
      (FillStatus.timeout,
        ⟨"y1", "yes_tok", BUY, 10, 45 / 100, 0, OrderStatus.partFill, 0, 0⟩,
        ⟨"n1", "no_tok", BUY, 10, 50 / 100, 0, OrderStatus.pending, 0, 10⟩) := by
    simp [monitor_fills_aux, p1, q1]
  have r1 : monitor_fills partial_then_error_poll never_fills_poll 1 c9_yes0 c9_no0 =
      (FillStatus.timeout,
        ⟨"y1", "yes_tok", BUY, 10, 45 / 100, 0, OrderStatus.partFill, 3, 7⟩,
        ⟨"n1", "no_tok", BUY, 10, 50 / 100, 0, OrderStatus.pending, 0, 10⟩) := by
    show monitor_fills_aux partial_then_error_poll never_fills_poll (0 + 1) 0 c9_yes0 c9_no0
      false false = _
    simp [monitor_fills_aux, p0, q0]
  have r2 : monitor_fills partial_then_error_poll never_fills_poll 2 c9_yes0 c9_no0 =
      (FillStatus.timeout,
        ⟨"y1", "yes_tok", BUY, 10, 45 / 100, 0, OrderStatus.partFill, 0, 0⟩,
        ⟨"n1", "no_tok", BUY, 10, 50 / 100, 0, OrderStatus.pending, 0, 10⟩) := by
    show monitor_fills_aux partial_then_error_poll never_fills_poll (1 + 1) 0 c9_yes0 c9_no0
      false false = _
    simp only [monitor_fills_aux, p0, q0]
    rw [if_neg (by decide)]
    exact r2a
  rw [r1, r2]
  norm_num

/-- Claim C9, amended: a transient failure of the status query during fill
monitoring is non-fatal — the tick leaves the order's `status` unchanged
and monitoring proceeds to the next iteration until the deadline — but the
tick does not keep the previously observed sizes: it overwrites
`filled_size` and `remaining_size` with the error dict's 0. -/
theorem C9_error_tick_semantics (oy ono : Nat → Except String OrderStatusResp)
    (fuel t : Nat) (yes no : OrderInfo) (e1 e2 : String)
    (hy : oy t = Except.error e1) (hn : ono t = Except.error e2)
    (hys : ¬(yes.size = 0)) (hns : ¬(no.size = 0)) :
    (poll_update yes (oy t)).1.status = yes.status ∧
    (poll_update yes (oy t)).1.filled_size = 0 ∧
    (poll_update yes (oy t)).1.remaining_size = 0 ∧
    (poll_update no (ono t)).1.status = no.status ∧
    (poll_update no (ono t)).1.filled_size = 0 ∧
    (poll_update no (ono t)).1.remaining_size = 0 ∧
    monitor_fills_aux oy ono (fuel + 1) t yes no false false =
      monitor_fills_aux oy ono fuel (t + 1)
        (poll_update yes (oy t)).1 (poll_update no (ono t)).1 false false := by
  have hpy : poll_update yes (oy t) =
      ({ yes with filled_size := 0, remaining_size := 0 }, false) := by
    rw [hy]
    simp only [poll_update, get_order_status]
    rw [if_neg (fun h => hys h.symm), if_neg (lt_irrefl 0)]
  have hpn : poll_update no (ono t) =
      ({ no with filled_size := 0, remaining_size := 0 }, false) := by
    rw [hn]
    simp only [poll_update, get_order_status]
    rw [if_neg (fun h => hns h.symm), if_neg (lt_irrefl 0)]
  refine ⟨by rw [hpy], by rw [hpy], by rw [hpy], by rw [hpn], by rw [hpn], by rw [hpn], ?_⟩
  simp only [monitor_fills_aux, hpy, hpn]
  simp

/-! ## Mitigation and validation lemmas -/

/-- When no retry polling iteration reports a full fill, `retry_fills` is
false. -/
theorem retry_fills_false (poll : Nat → Except String OrderStatusResp) (ticks : Nat)
    (target : ℚ)
    (h : ∀ t, t < ticks → ¬((get_order_status (poll t)).filled_size = target)) :
    retry_fills poll ticks target = false := by
  have hne : ¬(retry_fills poll ticks target = true) := by
    simp only [retry_fills, List.any_eq_true, List.mem_range, decide_eq_true_eq]
    rintro ⟨t, ht, hp⟩
    exact h t ht hp
  cases hb : retry_fills poll ticks target
  · rfl
  · exact absurd hb hne

/-- When the NO book is available, the retry order placement succeeds, and
no retry polling iteration fills, the YES-only handler falls through to
the unwind of the YES leg. -/
theorem handle_yes_only_fill_unwinds (o : Oracle) (retryTicks : Nat) (yes no : OrderInfo)
    (nb : Book) (hnb : o.noBook = Except.ok nb)
    (rid : String) (hpr : o.placeRetry = Except.ok rid)
    (hretry : ∀ t, t < retryTicks →
      ¬((get_order_status (o.pollRetry t)).filled_size = no.size)) :
    handle_yes_only_fill o retryTicks yes no = unwind_yes o yes := by
  have hrf := retry_fills_false o.pollRetry retryTicks no.size hretry
  simp only [handle_yes_only_fill, hnb, hpr, hrf]
  split_ifs with h1 h2
  · exact absurd h2 (by simp)
  · rfl
  · rfl

/-- Claim C7: when mitigation of a YES-only fill does not succeed in
filling the NO leg by retry (the book queries and the retry placement
succeed, but no retry poll reports a full fill) and the YES book has at
least one bid, the returned pnl is `−(entry_price − best_bid) × size` and
the returned note is the controlled-loss exit message. -/
theorem C7_unwind_pnl (o : Oracle) (retryTicks : Nat) (yes no : OrderInfo)
    (nb : Book) (hnb : o.noBook = Except.ok nb)
    (rid : String) (hpr : o.placeRetry = Except.ok rid)
    (hretry : ∀ t, t < retryTicks →
      ¬((get_order_status (o.pollRetry t)).filled_size = no.size))
    (yb : Book) (hyb : o.yesBook = Except.ok yb)
    (e : BookEntry) (rest : List BookEntry) (hbids : yb.bids = e :: rest) :
    (handle_yes_only_fill o retryTicks yes no).1 = -((yes.price - e.price) * yes.size) ∧
    (handle_yes_only_fill o retryTicks yes no).2 =
      MitNote.controlledLossYes ((yes.price - e.price) * yes.size) ∧
    mentions_controlled_loss (handle_yes_only_fill o retryTicks yes no).2 = true := by
  have hu := handle_yes_only_fill_unwinds o retryTicks yes no nb hnb rid hpr hretry
  rw [hu]
  simp [unwind_yes, hyb, hbids, mentions_controlled_loss]

/-- Witness for C7: scenario B — YES entry 0.45, size 10, NO never fills,
YES best bid 0.40; the pnl is −(0.45 − 0.40)·10 = −0.50. -/
theorem C7_unwind_pnl_witness :
    ((handle_yes_only_fill unwind_oracle 1
        (⟨"y1", "yes_tok", BUY, 10, 45 / 100, 0, OrderStatus.filled, 10, 0⟩ : OrderInfo)
        (⟨"n1", "no_tok", BUY, 10, 50 / 100, 0, OrderStatus.pending, 0, 10⟩ : OrderInfo)).1 =
      -(((45 / 100 : ℚ) - 40 / 100) * 10) ∧
    (handle_yes_only_fill unwind_oracle 1
        (⟨"y1", "yes_tok", BUY, 10, 45 / 100, 0, OrderStatus.filled, 10, 0⟩ : OrderInfo)
        (⟨"n1", "no_tok", BUY, 10, 50 / 100, 0, OrderStatus.pending, 0, 10⟩ : OrderInfo)).2 =
      MitNote.controlledLossYes (((45 / 100 : ℚ) - 40 / 100) * 10) ∧
    mentions_controlled_loss (handle_yes_only_fill unwind_oracle 1
        (⟨"y1", "yes_tok", BUY, 10, 45 / 100, 0, OrderStatus.filled, 10, 0⟩ : OrderInfo)
        (⟨"n1", "no_tok", BUY, 10, 50 / 100, 0, OrderStatus.pending, 0, 10⟩ : OrderInfo)).2 =
      true) ∧
    -(((45 / 100 : ℚ) - 40 / 100) * 10) = -(50 / 100) := by
  constructor
  · exact C7_unwind_pnl unwind_oracle 1
      (⟨"y1", "yes_tok", BUY, 10, 45 / 100, 0, OrderStatus.filled, 10, 0⟩ : OrderInfo)
      (⟨"n1", "no_tok", BUY, 10, 50 / 100, 0, OrderStatus.pending, 0, 10⟩ : OrderInfo)
      ⟨[⟨60 / 100, 100⟩], []⟩ rfl "n2" rfl
      (by intro t ht; norm_num [unwind_oracle, get_order_status])
      ⟨[⟨55 / 100, 100⟩], [⟨40 / 100, 100⟩]⟩ rfl ⟨40 / 100, 100⟩ [] rfl
  · norm_num

/-- The finalized execution's `fill_status` is the monitoring result. -/
theorem finalize_fill_status (o : Oracle) (retryTicks : Nat)
    (market_id yid nid : String) (fs : FillStatus) (yes1 no1 : OrderInfo)
    (v : Bool) (pv1 : PVState) :
    (finalize_execution o retryTicks market_id yid nid fs yes1 no1 v pv1).1.fill_status = fs := by
  unfold finalize_execution
  split_ifs with h1 h2
  · exact h1.symm
  · exact h2.symm
  · rfl

/-- The finalized execution passes the validator state through. -/
theorem finalize_pv (o : Oracle) (retryTicks : Nat)
    (market_id yid nid : String) (fs : FillStatus) (yes1 no1 : OrderInfo)
    (v : Bool) (pv1 : PVState) :
    (finalize_execution o retryTicks market_id yid nid fs yes1 no1 v pv1).2.1 = pv1 := by
  unfold finalize_execution
  split_ifs <;> rfl

/-- Dict assignment makes the new record the lookup result. -/
theorem lookup_record_position (pv : PVState) (market_id ptype : String) (size : ℚ) :
    List.lookup market_id (record_position pv market_id ptype size) =
      some ⟨ptype, size, 0⟩ := by
  simp [record_position, List.lookup]

/-- With only the YES leg filled, validation records a naked-YES
position and reports the position invalid. -/
theorem validate_one_filled_yes (pv : PVState) (market_id : String) (y n : OrderInfo)
    (hy : y.status = OrderStatus.filled) (hn : ¬(n.status = OrderStatus.filled)) :
    validate_arbitrage_position pv market_id (some y) (some n) =
      (false, record_position pv market_id ("naked_yes") y.size) := by
  simp only [validate_arbitrage_position]
  rw [if_neg (fun hh => hn hh.2), if_neg (fun hh => hh.1 hy), if_pos hy]

/-- With only the NO leg filled, validation records a naked-NO position
and reports the position invalid. -/
theorem validate_one_filled_no (pv : PVState) (market_id : String) (y n : OrderInfo)
    (hy : ¬(y.status = OrderStatus.filled)) (hn : n.status = OrderStatus.filled) :
    validate_arbitrage_position pv market_id (some y) (some n) =
      (false, record_position pv market_id ("naked_no") n.size) := by
  simp only [validate_arbitrage_position]
  rw [if_neg (fun hh => hy hh.1), if_neg (fun hh => hh.2 hn), if_neg hy]

/-- Claim C1, amended: every execution that `execute_arbitrage` returns
with `fill_status == ONE_FILLED` leaves the market recorded in the
validator's active positions — always as `naked_yes` or `naked_no`, never
as `hedged`, because validation runs before mitigation and a successful
retry does not update it; the recorded pnl may be 0 (retry success). -/
theorem C1_one_filled_recorded_naked (o : Oracle) (ticks retryTicks : Nat)
    (market_id : String) (yes_price no_price position_size : ℚ) (pv : PVState)
    (h : (execute_arbitrage o ticks retryTicks market_id yes_price no_price position_size
      pv).ex.fill_status = FillStatus.oneFilled) :
    ∃ rec : PosRecord,
      List.lookup market_id
          (execute_arbitrage o ticks retryTicks market_id yes_price no_price position_size
            pv).pv = some rec ∧
        (rec.ptype = "naked_yes" ∨ rec.ptype = "naked_no") := by
  cases hm : o.marketInfo with
  | error e => simp [execute_arbitrage, error_exec, hm] at h
  | ok tks =>
    cases hy : o.placeYes with
    | error e => simp [execute_arbitrage, error_exec, hm, hy] at h
    | ok yid =>
      cases hn : o.placeNo with
      | error e => simp [execute_arbitrage, error_exec, hm, hy, hn] at h
      | ok nid =>
        simp only [execute_arbitrage, hm, hy, hn] at h ⊢
        rw [finalize_fill_status] at h
        rw [finalize_pv]
        obtain ⟨c1, c2, c3, c4⟩ := monitor_fills_classify o.pollYes o.pollNo ticks yid nid
          tks.1 tks.2 position_size yes_price no_price
        rcases c2 h with ⟨hyl, hnr⟩ | ⟨hyl, hnr⟩
        · rw [validate_one_filled_yes pv market_id _ _ hyl hnr]
          exact ⟨⟨"naked_yes", _, 0⟩, lookup_record_position pv market_id _ _, Or.inl rfl⟩
        · rw [validate_one_filled_no pv market_id _ _ hyl hnr]
          exact ⟨⟨"naked_no", _, 0⟩, lookup_record_position pv market_id _ _, Or.inr rfl⟩

/-- Witness for C9's amended theorem: a run where both status queries fail
at tick 1 on partially observed legs. -/
theorem C9_error_tick_semantics_witness :
    (poll_update (⟨"y1", "yes_tok", BUY, 10, 45 / 100, 0, OrderStatus.partFill, 3, 7⟩ :
        OrderInfo) (partial_then_error_poll 1)).1.status =
      (⟨"y1", "yes_tok", BUY, 10, 45 / 100, 0, OrderStatus.partFill, 3, 7⟩ :
        OrderInfo).status ∧
    (poll_update (⟨"y1", "yes_tok", BUY, 10, 45 / 100, 0, OrderStatus.partFill, 3, 7⟩ :
        OrderInfo) (partial_then_error_poll 1)).1.filled_size = 0 ∧
    (poll_update (⟨"y1", "yes_tok", BUY, 10, 45 / 100, 0, OrderStatus.partFill, 3, 7⟩ :
        OrderInfo) (partial_then_error_poll 1)).1.remaining_size = 0 ∧
    (poll_update c9_no0 (partial_then_error_poll 1)).1.status = c9_no0.status ∧
    (poll_update c9_no0 (partial_then_error_poll 1)).1.filled_size = 0 ∧
    (poll_update c9_no0 (partial_then_error_poll 1)).1.remaining_size = 0 ∧
    monitor_fills_aux partial_then_error_poll partial_then_error_poll (3 + 1) 1
        (⟨"y1", "yes_tok", BUY, 10, 45 / 100, 0, OrderStatus.partFill, 3, 7⟩ : OrderInfo)
        c9_no0 false false =
      monitor_fills_aux partial_then_error_poll partial_then_error_poll 3 (1 + 1)
        (poll_update (⟨"y1", "yes_tok", BUY, 10, 45 / 100, 0, OrderStatus.partFill, 3, 7⟩ :
          OrderInfo) (partial_then_error_poll 1)).1
        (poll_update c9_no0 (partial_then_error_poll 1)).1 false false :=
  C9_error_tick_semantics partial_then_error_poll partial_then_error_poll 3 1
    (⟨"y1", "yes_tok", BUY, 10, 45 / 100, 0, OrderStatus.partFill, 3, 7⟩ : OrderInfo)
    c9_no0 "network down" "network down" (by rfl) (by rfl)
    (by norm_num) (by norm_num [c9_no0])

/-! ## The retry-success run, computed -/

/-- In the retry-success run, monitoring ends `ONE_FILLED` with the YES
leg filled and the NO leg untouched. -/
theorem retry_success_monitor :
    monitor_fills retry_success_oracle.pollYes retry_success_oracle.pollNo 1
        (init_order "y1" "yes_tok" 10 (45 / 100)) (init_order "n1" "no_tok" 10 (50 / 100)) =
      (FillStatus.oneFilled,
        ⟨"y1", "yes_tok", BUY, 10, 45 / 100, 0, OrderStatus.filled, 10, 0⟩,
        ⟨"n1", "no_tok", BUY, 10, 50 / 100, 0, OrderStatus.pending, 0, 10⟩) := by
  have py : poll_update (init_order "y1" "yes_tok" 10 (45 / 100))
      (retry_success_oracle.pollYes 0) =
      (⟨"y1", "yes_tok", BUY, 10, 45 / 100, 0, OrderStatus.filled, 10, 0⟩, true) := by
    simp only [poll_update, get_order_status, retry_success_oracle, init_order]
    norm_num
  have pn : poll_update (init_order "n1" "no_tok" 10 (50 / 100))
      (retry_success_oracle.pollNo 0) =
      (⟨"n1", "no_tok", BUY, 10, 50 / 100, 0, OrderStatus.pending, 0, 10⟩, false) := by
    simp only [poll_update, get_order_status, retry_success_oracle, init_order]
    norm_num
  show monitor_fills_aux retry_success_oracle.pollYes retry_success_oracle.pollNo (0 + 1) 0
    (init_order "y1" "yes_tok" 10 (45 / 100)) (init_order "n1" "no_tok" 10 (50 / 100))
    false false = _
  simp [monitor_fills_aux, py, pn]

/-- In the retry-success run, mitigation retries the NO leg (the edge
persists: 0.50 + 0.45 < 1), the retry fills, and mitigation returns
pnl 0 with the retry note. -/
theorem retry_success_mitigation :
    handle_partial_fill retry_success_oracle 1
        (⟨"y1", "yes_tok", BUY, 10, 45 / 100, 0, OrderStatus.filled, 10, 0⟩ : OrderInfo)
        (⟨"n1", "no_tok", BUY, 10, 50 / 100, 0, OrderStatus.pending, 0, 10⟩ : OrderInfo) =
      (0, MitNote.retryFilled) := by
  have hrf : retry_fills retry_success_oracle.pollRetry 1 (10 : ℚ) = true := by
    norm_num [retry_fills, retry_success_oracle, get_order_status]
  have ho1 : retry_success_oracle.noBook = Except.ok ⟨[⟨50 / 100, 100⟩], []⟩ := rfl
  have ho2 : retry_success_oracle.placeRetry = Except.ok "n2" := rfl
  simp only [handle_partial_fill]
  rw [if_pos (by decide)]
  simp only [handle_yes_only_fill, ho1, ho2]
  rw [if_pos (by norm_num)]
  simp [hrf]

/-- The retry-success run end to end: the returned execution is
`ONE_FILLED` with pnl 0 and the retry note, and the validator records the
market as a naked-YES position of size 10. -/
theorem retry_success_exec_eq :
    execute_arbitrage retry_success_oracle 1 1 "m1" (45 / 100) (50 / 100) 10 [] =
      ⟨⟨"m1",
          some ⟨"y1", "yes_tok", BUY, 10, 45 / 100, 0, OrderStatus.filled, 10, 0⟩,
          some ⟨"n1", "no_tok", BUY, 10, 50 / 100, 0, OrderStatus.pending, 0, 10⟩,
          FillStatus.oneFilled, 0,
          ⟨NoteBase.partialNote MitNote.retryFilled, true, true⟩⟩,
        [("m1", ⟨"naked_yes", 10, 0⟩)], ["y1", "n1"], []⟩ := by
  have o1 : retry_success_oracle.marketInfo = Except.ok ("yes_tok", "no_tok") := rfl
  have o2 : retry_success_oracle.placeYes = Except.ok "y1" := rfl
  have o3 : retry_success_oracle.placeNo = Except.ok "n1" := rfl
  have hval : validate_arbitrage_position [] "m1"
      (some (⟨"y1", "yes_tok", BUY, 10, 45 / 100, 0, OrderStatus.filled, 10, 0⟩ : OrderInfo))
      (some (⟨"n1", "no_tok", BUY, 10, 50 / 100, 0, OrderStatus.pending, 0, 10⟩ : OrderInfo)) =
      (false, [("m1", (⟨"naked_yes", 10, 0⟩ : PosRecord))]) := by
    rw [validate_one_filled_yes _ _ _ _ rfl (by decide)]
    simp [record_position]
  simp only [execute_arbitrage, o1, o2, o3, retry_success_monitor, hval]
  simp [finalize_execution, retry_success_mitigation, warn_final]

/-- Claim C1, counterexample: in the retry-success run the execution ends
`ONE_FILLED` with pnl 0, and the market is recorded as `naked_yes` — so it
is neither recorded as `hedged` (though the retry filled the missing leg)
nor as a naked position with a nonzero recorded loss. -/
theorem C1_counterexample :
    (execute_arbitrage retry_success_oracle 1 1 "m1" (45 / 100) (50 / 100) 10
        []).ex.fill_status = FillStatus.oneFilled ∧
    (execute_arbitrage retry_success_oracle 1 1 "m1" (45 / 100) (50 / 100) 10 []).ex.pnl = 0 ∧
    List.lookup "m1" (execute_arbitrage retry_success_oracle 1 1 "m1" (45 / 100) (50 / 100) 10
        []).pv = some ⟨"naked_yes", 10, 0⟩ ∧
    ∀ rec : PosRecord,
      List.lookup "m1" (execute_arbitrage retry_success_oracle 1 1 "m1" (45 / 100) (50 / 100)
          10 []).pv = some rec →
      ¬(rec.ptype = "hedged" ∨
        ((rec.ptype = "naked_yes" ∨ rec.ptype = "naked_no") ∧
          ¬((execute_arbitrage retry_success_oracle 1 1 "m1" (45 / 100) (50 / 100) 10
            []).ex.pnl = 0))) := by
  rw [retry_success_exec_eq]
  refine ⟨rfl, rfl, by simp [List.lookup], ?_⟩
  intro rec hr
  simp [List.lookup] at hr
  subst hr
  rintro (h1 | ⟨h2, h3⟩)
  · exact absurd h1 (by decide)
  · exact h3 rfl

/-- Witness for C1's amended theorem: the retry-success run. -/
theorem C1_one_filled_recorded_naked_witness :
    (execute_arbitrage retry_success_oracle 1 1 "m1" (45 / 100) (50 / 100) 10
        []).ex.fill_status = FillStatus.oneFilled ∧
    ∃ rec : PosRecord,
      List.lookup "m1" (execute_arbitrage retry_success_oracle 1 1 "m1" (45 / 100) (50 / 100)
          10 []).pv = some rec ∧
        (rec.ptype = "naked_yes" ∨ rec.ptype = "naked_no") :=
  ⟨by rw [retry_success_exec_eq],
    C1_one_filled_recorded_naked retry_success_oracle 1 1 "m1" (45 / 100) (50 / 100) 10 []
      (by rw [retry_success_exec_eq])⟩

/-- Claim C4, amended: when the YES leg is placed and the NO placement
raises, `execute_arbitrage` finalizes through the `except` block — the
execution carries `NONE_FILLED`, pnl 0, and the reason in its notes — but
no cancellation is attempted: the already-placed YES leg stays open at the
exchange (placed = the YES order, cancelled = nothing). -/
theorem C4_no_cancellation_on_second_leg_failure (o : Oracle) (ticks retryTicks : Nat)
    (market_id : String) (yes_price no_price position_size : ℚ) (pv : PVState)
    (tks : String × String) (yid e : String)
    (h1 : o.marketInfo = Except.ok tks) (h2 : o.placeYes = Except.ok yid)
    (h3 : o.placeNo = Except.error e) :
    execute_arbitrage o ticks retryTicks market_id yes_price no_price position_size pv =
      ⟨error_exec market_id e, pv, [yid], []⟩ := by
  simp only [execute_arbitrage, h1, h2, h3]

/-- Claim C4, counterexample: with the NO placement raising, the placed
YES leg "y1" is not cancelled (the cancelled set is empty), so the claim's
"any leg already placed at the exchange is cancelled" fails; the execution
is finalized with `NONE_FILLED` and the reason in its notes. -/
theorem C4_counterexample :
    (execute_arbitrage no_placement_fails_oracle 1 1 "m4" (45 / 100) (50 / 100) 10
        []).placed = ["y1"] ∧
    (execute_arbitrage no_placement_fails_oracle 1 1 "m4" (45 / 100) (50 / 100) 10
        []).cancelled = [] ∧
    ¬("y1" ∈ (execute_arbitrage no_placement_fails_oracle 1 1 "m4" (45 / 100) (50 / 100) 10
        []).cancelled) ∧
    (execute_arbitrage no_placement_fails_oracle 1 1 "m4" (45 / 100) (50 / 100) 10
        []).ex.fill_status = FillStatus.noneFilled ∧
    (execute_arbitrage no_placement_fails_oracle 1 1 "m4" (45 / 100) (50 / 100) 10
        []).ex.notes.base = NoteBase.execError "exchange rejected NO leg" ∧
    (execute_arbitrage no_placement_fails_oracle 1 1 "m4" (45 / 100) (50 / 100) 10
        []).ex.pnl = 0 := by
  have hexe : execute_arbitrage no_placement_fails_oracle 1 1 "m4" (45 / 100) (50 / 100) 10
      [] = ⟨error_exec "m4" "exchange rejected NO leg", [], ["y1"], []⟩ := by
    have o1 : no_placement_fails_oracle.marketInfo = Except.ok ("yes_tok", "no_tok") := rfl
    have o2 : no_placement_fails_oracle.placeYes = Except.ok "y1" := rfl
    have o3 : no_placement_fails_oracle.placeNo =
        Except.error "exchange rejected NO leg" := rfl
    simp only [execute_arbitrage, o1, o2, o3]
  rw [hexe]
  exact ⟨rfl, rfl, by simp, rfl, rfl, rfl⟩

/-- Witness for C4's amended theorem: the concrete NO-placement-failure
run. -/
theorem C4_no_cancellation_on_second_leg_failure_witness :
    execute_arbitrage no_placement_fails_oracle 1 1 "m4" (45 / 100) (50 / 100) 10 [] =
      ⟨error_exec "m4" "exchange rejected NO leg", [], ["y1"], []⟩ :=
  C4_no_cancellation_on_second_leg_failure no_placement_fails_oracle 1 1 "m4" (45 / 100)
    (50 / 100) 10 [] ("yes_tok", "no_tok") "y1" "exchange rejected NO leg" rfl rfl rfl

/-! ## Snapshot-isolation lemmas -/

/-- One dict-level mutation of dict `di` leaves the record store and every
other dict object untouched. -/
theorem apply_dict_op_frame (mm : Mem) (di : Nat) (op : DictOp) (i : Nat) (h : i ≠ di) :
    (apply_dict_op mm di op).recs = mm.recs ∧
      (apply_dict_op mm di op).dicts[i]? = mm.dicts[i]? := by
  cases op <;> exact ⟨rfl, List.getElem?_set_ne (Ne.symm h)⟩

/-- A sequence of dict-level mutations of dict `di` leaves the record
store and every other dict object untouched. -/
theorem apply_dict_ops_frame (di : Nat) :
    ∀ (ops : List DictOp) (mm : Mem) (i : Nat), i ≠ di →
      (apply_dict_ops mm di ops).recs = mm.recs ∧
        (apply_dict_ops mm di ops).dicts[i]? = mm.dicts[i]? := by
  intro ops
  induction ops with
  | nil => intro mm i h; exact ⟨rfl, rfl⟩
  | cons op rest ih =>
    intro mm i h
    have h1 := apply_dict_op_frame mm di op i h
    have h2 := ih (apply_dict_op mm di op) i h
    exact ⟨h2.1.trans h1.1, h2.2.trans h1.2⟩

/-- Reading a dict depends only on that dict object and the record
store. -/
theorem read_positions_congr (m1 m2 : Mem) (d : Nat)
    (h1 : m1.dicts[d]? = m2.dicts[d]?) (h2 : m1.recs = m2.recs) :
    read_positions m1 d = read_positions m2 d := by
  unfold read_positions
  rw [List.getD_eq_getElem?_getD, List.getD_eq_getElem?_getD, h1, h2]

/-- Claim C10: `get_active_positions` returns a snapshot copy.  The call
itself leaves the validator's dict and the record store unchanged; the
returned dict is a fresh object, so any sequence of dict-level mutations
applied to it leaves the validator's dict — and therefore the results of
subsequent `get_active_positions` reads and `get_naked_positions` calls —
unchanged. -/
theorem C10_snapshot_isolation (m : Mem) (v : Nat) (hv : v < m.dicts.length)
    (ops : List DictOp) :
    (get_active_positions m v).2.recs = m.recs ∧
    (get_active_positions m v).2.dicts[v]? = m.dicts[v]? ∧
    read_positions (apply_dict_ops (get_active_positions m v).2
        (get_active_positions m v).1 ops) v = read_positions m v ∧
    get_naked_positions (apply_dict_ops (get_active_positions m v).2
        (get_active_positions m v).1 ops) v = get_naked_positions m v := by
  have hsnap : (get_active_positions m v).1 = m.dicts.length := rfl
  have hrecs1 : (get_active_positions m v).2.recs = m.recs := rfl
  have hdict1 : (get_active_positions m v).2.dicts[v]? = m.dicts[v]? := by
    show (m.dicts ++ [m.dicts.getD v []])[v]? = m.dicts[v]?
    exact List.getElem?_append_left hv
  have hne : v ≠ (get_active_positions m v).1 := by
    rw [hsnap]; exact Nat.ne_of_lt hv
  have hframe := apply_dict_ops_frame (get_active_positions m v).1 ops
    (get_active_positions m v).2 v hne
  have hread : read_positions (apply_dict_ops (get_active_positions m v).2
      (get_active_positions m v).1 ops) v = read_positions m v :=
    read_positions_congr _ _ v (hframe.2.trans hdict1) (hframe.1.trans hrecs1)
  refine ⟨hrecs1, hdict1, hread, ?_⟩
  unfold get_naked_positions
  rw [hread]

/-- Witness for C10: a validator owning one dict recording a naked-YES
market, with the snapshot mutated by an insertion and a deletion. -/
theorem C10_snapshot_isolation_witness :
    (get_active_positions ⟨[[("m1", 0)]], [⟨"naked_yes", 10, 0⟩]⟩ 0).2.recs =
        (⟨[[("m1", 0)]], [⟨"naked_yes", 10, 0⟩]⟩ : Mem).recs ∧
    (get_active_positions ⟨[[("m1", 0)]], [⟨"naked_yes", 10, 0⟩]⟩ 0).2.dicts[0]? =
        (⟨[[("m1", 0)]], [⟨"naked_yes", 10, 0⟩]⟩ : Mem).dicts[0]? ∧
    read_positions (apply_dict_ops
        (get_active_positions ⟨[[("m1", 0)]], [⟨"naked_yes", 10, 0⟩]⟩ 0).2
        (get_active_positions ⟨[[("m1", 0)]], [⟨"naked_yes", 10, 0⟩]⟩ 0).1
        [DictOp.setKey "m2" 0, DictOp.delKey "m1"]) 0 =
      read_positions ⟨[[("m1", 0)]], [⟨"naked_yes", 10, 0⟩]⟩ 0 ∧
    get_naked_positions (apply_dict_ops
        (get_active_positions ⟨[[("m1", 0)]], [⟨"naked_yes", 10, 0⟩]⟩ 0).2
        (get_active_positions ⟨[[("m1", 0)]], [⟨"naked_yes", 10, 0⟩]⟩ 0).1
        [DictOp.setKey "m2" 0, DictOp.delKey "m1"]) 0 =
      get_naked_positions ⟨[[("m1", 0)]], [⟨"naked_yes", 10, 0⟩]⟩ 0 :=
  C10_snapshot_isolation ⟨[[("m1", 0)]], [⟨"naked_yes", 10, 0⟩]⟩ 0 (by decide)
    [DictOp.setKey "m2" 0, DictOp.delKey "m1"]

end PolyArb
